import Mathlib

/-!
Verification of the Draft Decision Engine of SleeperLiveDraftRankingsV2.

Each Python function relevant to the checked claims is shallowly embedded as
an executable Lean definition translated from the source:

* `TeamAnalyzer._calculate_team_index`   (src/backend/services/team_analyzer.py)
* `TeamAnalyzer._calculate_team_strength` (same file)
* `VBDCalculator._calculate_baselines`, `_estimate_points_from_tier`,
  `_calculate_player_vbd`, `calculate_vbd_metrics`
  (src/backend/services/vbd_calculator.py)
* `LeagueAnalyzer.detect_league_format`, `is_dynasty_or_keeper_league`
  (src/backend/services/sleeper/league_analyzer.py)
* `SleeperAPI.get_all_unavailable_players` (src/backend/services/sleeper_api.py)
* `SimpleRankingsManager.get_available_players`, `_find_sleeper_match`
  (src/backend/rankings/SimpleRankingsManager.py)

Python floats are modelled as rationals, Python ints as `Int`/`Nat`,
`None`/absent dictionary keys as `Option`, and raised exceptions as
`Except Unit`.  External HTTP fetches are modelled as an explicit
environment record whose fields hold each fetch's outcome.
-/

namespace SleeperDraft

/-! ## Draft seat mapper: `TeamAnalyzer._calculate_team_index` -/

/-- Embedding of `TeamAnalyzer._calculate_team_index(pick_no, total_teams, draft_type)`.
Snake drafts compute the round from the pick number and reverse direction on
even rounds; linear drafts always use `(pick_no - 1) % total_teams`. -/
def calculate_team_index (pick_no total_teams : ℕ) (draft_type : String) : ℕ :=
  if draft_type = "snake" then
    -- round_num := (pick_no - 1) // total_teams + 1
    if ((pick_no - 1) / total_teams + 1) % 2 = 1 then
      (pick_no - 1) % total_teams
    else
      total_teams - 1 - ((pick_no - 1) % total_teams)
  else
    (pick_no - 1) % total_teams

/-- The complete pick sequence `1 .. total_teams * rounds` of a draft. -/
def completePickSequence (total_teams rounds : ℕ) : List ℕ :=
  (List.range (total_teams * rounds)).map (· + 1)

/-- The picks of the complete sequence that the seat mapper assigns to team `t`. -/
def picksOfTeam (total_teams rounds t : ℕ) (draft_type : String) : List ℕ :=
  (completePickSequence total_teams rounds).filter
    (fun p => calculate_team_index p total_teams draft_type = t)

/-! ## Roster needs analyzer: `TeamAnalyzer._calculate_team_strength` -/

/-- Embedding of `TeamAnalyzer._calculate_team_strength(position_counts)`.
`counts` plays the role of the `position_counts` dictionary read through
`position_counts.get(pos, 0)`.  Scores are Python ints, so `ℤ`. -/
def calculate_team_strength (counts : String → ℕ) : ℤ :=
  let score : ℤ := 0
  let max_score : ℤ := 100
  -- Starting lineup coverage (60 points max)
  let score := if counts "QB" ≥ 1 then score + 10 else score
  let score :=
    if counts "RB" ≥ 2 then score + 15
    else if counts "RB" ≥ 1 then score + 8 else score
  let score :=
    if counts "WR" ≥ 2 then score + 15
    else if counts "WR" ≥ 1 then score + 8 else score
  let score := if counts "TE" ≥ 1 then score + 10 else score
  let score := if counts "K" ≥ 1 then score + 5 else score
  let score := if counts "DEF" ≥ 1 then score + 5 else score
  -- Depth scoring (40 points max)
  let score := score + min ((counts "RB" : ℤ) - 2) 2 * 5
  let score := score + min ((counts "WR" : ℤ) - 2) 3 * 5
  let score := score + min ((counts "QB" : ℤ) - 1) 1 * 5
  let score := score + min ((counts "TE" : ℤ) - 1) 1 * 5
  min score max_score

/-! ## Value-Based-Drafting engine: `VBDCalculator` -/

/-- A player dictionary as consumed by `VBDCalculator`: each field models the
corresponding dictionary key, `none` meaning the key is absent. -/
structure VPlayer where
  position : Option String
  projected_points : Option ℚ
  tier : Option ℚ
  position_rank : Option ℚ
deriving DecidableEq, Repr, Inhabited

/-- `self.lineup_requirements.get(league_format, self.lineup_requirements['standard'])
.get(position, 0)`: the per-position starter requirement tables of
`VBDCalculator.__init__`. -/
def lineup_requirement (league_format pos : String) : ℕ :=
  if league_format = "superflex" then
    match pos with
    | "QB" => 1 | "RB" => 2 | "WR" => 2 | "TE" => 1
    | "FLEX" => 1 | "SUPERFLEX" => 1 | "K" => 1 | "DEF" => 1
    | _ => 0
  else
    match pos with
    | "QB" => 1 | "RB" => 2 | "WR" => 2 | "TE" => 1
    | "FLEX" => 1 | "K" => 1 | "DEF" => 1
    | _ => 0

/-- `VBDCalculator._get_bench_multiplier`. -/
def bench_multiplier (pos : String) : ℚ :=
  match pos with
  | "QB" => 1/2 | "RB" => 3/2 | "WR" => 6/5 | "TE" => 4/5
  | "K" => 1/10 | "DEF" => 1/5
  | _ => 1

/-- The replacement index `total_demand` computed inside
`VBDCalculator._calculate_baselines`:
`int(base_starters + additional_demand + bench_demand)` where
`base_starters = requirements.get(position, 0) * league_size`, flex demand is
30% of flex slots for RB/WR/TE, superflex demand is 20% of superflex slots for
QB/RB/WR/TE in superflex format, and bench demand is
`base_starters * bench_multiplier`. -/
def total_demand (league_format pos : String) (league_size : ℕ) : ℕ :=
  let base_starters : ℕ := lineup_requirement league_format pos * league_size
  let additional : ℚ :=
    (if pos = "RB" ∨ pos = "WR" ∨ pos = "TE" then
       ((lineup_requirement league_format "FLEX" * league_size : ℕ) : ℚ) * (3/10)
     else 0)
    + (if (pos = "QB" ∨ pos = "RB" ∨ pos = "WR" ∨ pos = "TE")
          ∧ league_format = "superflex" then
         ((lineup_requirement league_format "SUPERFLEX" * league_size : ℕ) : ℚ) * (1/5)
       else 0)
  let bench : ℚ := (base_starters : ℚ) * bench_multiplier pos
  (⌊(base_starters : ℚ) + additional + bench⌋).toNat

/-- The per-position/per-tier point table of
`VBDCalculator._estimate_points_from_tier` (`point_estimates`). -/
def point_estimate_table (pos : String) (tier : ℚ) : Option ℚ :=
  match pos with
  | "QB" =>
      if tier = 1 then some 320 else if tier = 2 then some 300
      else if tier = 3 then some 280 else if tier = 4 then some 260
      else if tier = 5 then some 240 else if tier = 6 then some 220
      else if tier = 7 then some 200 else if tier = 8 then some 180 else none
  | "RB" =>
      if tier = 1 then some 280 else if tier = 2 then some 250
      else if tier = 3 then some 220 else if tier = 4 then some 200
      else if tier = 5 then some 180 else if tier = 6 then some 160
      else if tier = 7 then some 140 else if tier = 8 then some 120 else none
  | "WR" =>
      if tier = 1 then some 260 else if tier = 2 then some 230
      else if tier = 3 then some 200 else if tier = 4 then some 180
      else if tier = 5 then some 160 else if tier = 6 then some 140
      else if tier = 7 then some 120 else if tier = 8 then some 100 else none
  | "TE" =>
      if tier = 1 then some 180 else if tier = 2 then some 150
      else if tier = 3 then some 130 else if tier = 4 then some 110
      else if tier = 5 then some 95 else if tier = 6 then some 85
      else if tier = 7 then some 75 else if tier = 8 then some 65 else none
  | "K" =>
      if tier = 1 then some 140 else if tier = 2 then some 130
      else if tier = 3 then some 125 else if tier = 4 then some 120
      else if tier = 5 then some 115 else if tier = 6 then some 110
      else if tier = 7 then some 105 else if tier = 8 then some 100 else none
  | "DEF" =>
      if tier = 1 then some 150 else if tier = 2 then some 140
      else if tier = 3 then some 130 else if tier = 4 then some 125
      else if tier = 5 then some 120 else if tier = 6 then some 115
      else if tier = 7 then some 110 else if tier = 8 then some 105 else none
  | _ => none

/-- `position_estimates.get(8, 100)`: the tier-8 base used for extrapolation. -/
def tier8_base (pos : String) : ℚ :=
  match point_estimate_table pos 8 with
  | some v => v
  | none => 100

/-- Embedding of `VBDCalculator._estimate_points_from_tier(player)`. -/
def estimate_points_from_tier (p : VPlayer) : Option ℚ :=
  match p.tier with
  | none => none
  | some tier =>
      let pos := p.position
      let posKey := match pos with
        | some s => s
        | none => "<none>"   -- a None position hits no table entry
      match point_estimate_table posKey tier with
      | some v => some v
      | none =>
          if tier > 8 then
            some (max 50 (tier8_base posKey - (tier - 8) * 10))
          else
            none

/-- The sort key used by `_calculate_baselines`:
`x.get('projected_points', x.get('tier', 999))`. -/
def baselineSortKey (p : VPlayer) : ℚ :=
  p.projected_points.getD (p.tier.getD 999)

/-- Descending order on the baseline sort key (`sorted(..., reverse=True)`). -/
def baselineDescRel (a b : VPlayer) : Prop := baselineSortKey b ≤ baselineSortKey a

instance : DecidableRel baselineDescRel := fun a b =>
  inferInstanceAs (Decidable (baselineSortKey b ≤ baselineSortKey a))

instance : IsTotal VPlayer baselineDescRel :=
  ⟨fun a b => (le_total (baselineSortKey b) (baselineSortKey a)).imp id id⟩

instance : IsTrans VPlayer baselineDescRel :=
  ⟨fun _ _ _ h1 h2 => le_trans h2 h1⟩

/-- `baseline_player.get('projected_points', self._estimate_points_from_tier(baseline_player))`:
the value stored for a position once the replacement-level player is chosen.
`none` models Python `None`. -/
def baselineValue (p : VPlayer) : Option ℚ :=
  match p.projected_points with
  | some x => some x
  | none => estimate_points_from_tier p

/-- The body of the `for position, position_players in players_by_position.items()`
loop of `VBDCalculator._calculate_baselines`: the baseline stored for one
position. -/
def positionBaseline (league_format : String) (league_size : ℕ)
    (pos : String) (ps : List VPlayer) : Option ℚ :=
  if ps = [] then some 0
  else
    let sortedPs := List.insertionSort baselineDescRel ps
    let k := total_demand league_format pos league_size
    let bp := if sortedPs.length > k then sortedPs.getD k default
              else sortedPs.getLastD default
    baselineValue bp

/-- Embedding of `VBDCalculator._calculate_baselines(players_by_position, ...)`;
the dictionary of baselines is an association list in key-insertion order. -/
def calculate_baselines (groups : List (String × List VPlayer))
    (league_format : String) (league_size : ℕ) : List (String × Option ℚ) :=
  groups.map (fun g => (g.1, positionBaseline league_format league_size g.1 g.2))

/-- The positions accepted by `calculate_vbd_metrics` when grouping:
`['QB', 'RB', 'WR', 'TE', 'K', 'DEF']`. -/
def VALID_POSITIONS : List String := ["QB", "RB", "WR", "TE", "K", "DEF"]

/-- Append `p` to the group of `pos`, creating the group at the end if missing
(Python `defaultdict(list)` keeps key-insertion order). -/
def addToGroup : List (String × List VPlayer) → String → VPlayer →
    List (String × List VPlayer)
  | [], pos, p => [(pos, [p])]
  | (k, l) :: rest, pos, p =>
      if k = pos then (k, l ++ [p]) :: rest else (k, l) :: addToGroup rest pos p

/-- The grouping loop of `calculate_vbd_metrics`: players with a position
outside `VALID_POSITIONS` are not grouped. -/
def groupByPosition (players : List VPlayer) : List (String × List VPlayer) :=
  players.foldl
    (fun acc p =>
      let pos := p.position.getD "Unknown"
      if pos ∈ VALID_POSITIONS then addToGroup acc pos p else acc)
    []

/-- `self.scarcity_multipliers.get(position, 1.0)`. -/
def scarcity_multiplier (pos : String) : ℚ :=
  match pos with
  | "QB" => 1 | "RB" => 13/10 | "WR" => 11/10 | "TE" => 3/2
  | "K" => 4/5 | "DEF" => 4/5
  | _ => 1

/-- Python 3 `round(x)` (banker's rounding, half to even). -/
def pyRoundHalfEven (q : ℚ) : ℤ :=
  let f := ⌊q⌋
  if q - f < 1/2 then f
  else if q - f > 1/2 then f + 1
  else if f % 2 = 0 then f else f + 1

/-- `round(x, 2)`. -/
def round2 (q : ℚ) : ℚ := (pyRoundHalfEven (q * 100) : ℚ) / 100

/-- `self._calculate_position_scarcity(position, position_rank)` thresholds. -/
def scarcity_thresholds (pos : String) : ℚ × ℚ :=
  match pos with
  | "QB" => (12, 20) | "RB" => (24, 36) | "WR" => (30, 48)
  | "TE" => (12, 20) | "K" => (15, 25) | "DEF" => (15, 25)
  | _ => (20, 35)

/-- Embedding of `VBDCalculator._calculate_position_scarcity`. -/
def calculate_position_scarcity (pos : String) (position_rank : ℚ) : String :=
  let t := scarcity_thresholds pos
  if position_rank ≤ t.1 then "High"
  else if position_rank ≤ t.2 then "Medium"
  else "Low"

/-- The dictionary returned by `VBDCalculator._calculate_player_vbd`. -/
structure VbdMetrics where
  vbd_value : ℚ
  raw_vbd : ℚ
  baseline_points : ℚ
  projected_points : ℚ
  scarcity_multiplier : ℚ
  position_scarcity : String
deriving DecidableEq, Repr

/-- Embedding of `VBDCalculator._calculate_player_vbd(player, baselines)`.
`Except.error` models the `TypeError` raised by
`projected_points - baseline` when the stored baseline is Python `None`. -/
def calculate_player_vbd (p : VPlayer) (baselines : List (String × Option ℚ)) :
    Except Unit (Option VbdMetrics) :=
  match p.position with
  | none => .ok none
  | some pos =>
      match baselines.lookup pos with
      | none => .ok none
      | some bOpt =>
          let pp? := match p.projected_points with
            | some x => some x
            | none => estimate_points_from_tier p
          match pp? with
          | none => .ok none
          | some pp =>
              match bOpt with
              | none => .error ()
              | some b =>
                  let raw := pp - b
                  let mult := SleeperDraft.scarcity_multiplier pos
                  let prank := p.position_rank.getD (p.tier.getD 999)
                  .ok (some
                    { vbd_value := round2 (raw * mult)
                      raw_vbd := round2 raw
                      baseline_points := round2 b
                      projected_points := round2 pp
                      scarcity_multiplier := mult
                      position_scarcity := calculate_position_scarcity pos prank })

/-- The `for player in players` accumulation loop of `calculate_vbd_metrics`:
players whose metrics come back `None` are skipped; a raised exception aborts
the loop. -/
def collectVbd (baselines : List (String × Option ℚ)) :
    List VPlayer → Except Unit (List (VPlayer × VbdMetrics))
  | [] => .ok []
  | p :: rest =>
      match calculate_player_vbd p baselines with
      | .error e => .error e
      | .ok m? =>
          match collectVbd baselines rest with
          | .error e => .error e
          | .ok tail =>
              match m? with
              | some m => .ok ((p, m) :: tail)
              | none => .ok tail

/-- One entry of the returned `players` list: the merged player dictionary
(`{**player, **vbd_metrics}` plus `vbd_rank`). -/
structure VbdOutPlayer where
  base : VPlayer
  metrics : VbdMetrics
  vbd_rank : ℕ
deriving DecidableEq, Repr

/-- `for i, player in enumerate(vbd_players): player['vbd_rank'] = i + 1`. -/
def assignRanks (i : ℕ) : List (VPlayer × VbdMetrics) → List VbdOutPlayer
  | [] => []
  | pm :: rest => ⟨pm.1, pm.2, i⟩ :: assignRanks (i + 1) rest

/-- Descending stable order on `vbd_value`
(`vbd_players.sort(key=..., reverse=True)`). -/
def vbdValueDescRel (a b : VPlayer × VbdMetrics) : Prop :=
  b.2.vbd_value ≤ a.2.vbd_value

instance : DecidableRel vbdValueDescRel := fun a b =>
  inferInstanceAs (Decidable (b.2.vbd_value ≤ a.2.vbd_value))

/-- The dictionary returned by `VBDCalculator.calculate_vbd_metrics` on
success. -/
structure VbdResult where
  players : List VbdOutPlayer
  baselines : List (String × Option ℚ)
  league_format : String
  league_size : ℕ
  total_players : ℕ
deriving DecidableEq, Repr

/-- Embedding of `VBDCalculator.calculate_vbd_metrics(players, league_format,
league_size)`.  `Except.error` models the `except` branch that returns the
degraded `{'players': [], 'baselines': {}, 'error': ...}` dictionary. -/
def calculate_vbd_metrics (players : List VPlayer) (league_format : String)
    (league_size : ℕ) : Except Unit VbdResult :=
  let groups := groupByPosition players
  let baselines := calculate_baselines groups league_format league_size
  match collectVbd baselines players with
  | .error e => .error e
  | .ok lst =>
      let sortedPlayers := List.insertionSort vbdValueDescRel lst
      let ranked := assignRanks 1 sortedPlayers
      .ok { players := ranked
            baselines := baselines
            league_format := league_format
            league_size := league_size
            total_players := ranked.length }

/-! ## League classifier and unavailability resolver -/

/-- The `settings` dictionary of a Sleeper league; `none` = key absent. -/
structure LeagueSettings where
  type : Option ℤ
  taxi_slots : Option ℤ
  max_keepers : Option ℤ
deriving DecidableEq, Repr

/-- One league roster as returned by `get_league_rosters`. -/
structure Roster where
  players : List String
  taxi : List String
  reserve : List String
  keepers : List String
deriving DecidableEq, Repr

/-- The draft-info fields the analyzed code reads. -/
structure DraftInfo where
  league_id : Option String
  metadata_scoring_type : Option String
deriving DecidableEq, Repr

/-- The league-info fields the analyzed code reads. -/
structure LeagueInfo where
  league_id : Option String
  draft_id : Option String
  previous_league_id : Option String
  settings : Option LeagueSettings
deriving DecidableEq, Repr

/-- Python truthiness of an optional string (`None` and `''` are falsy). -/
def truthy : Option String → Bool
  | some s => s ≠ ""
  | none => false

/-- The outcome of each external Sleeper HTTP fetch, fixed for one resolver
call: `Except.error` models the fetch raising `SleeperAPIError`. -/
structure FetchEnv where
  draft_picks : Except Unit (List (Option String))
  all_players : Except Unit Unit
  draft_info : Except Unit (Option DraftInfo)
  league_info : Except Unit (Option LeagueInfo)
  league_rosters : Except Unit (List Roster)

/-- Embedding of `LeagueAnalyzer.is_dynasty_or_keeper_league(league_info)`
(league_analyzer.py): type 2, taxi slots, observed keepers (authoritative),
`max_keepers > 1`, then dynasty draft metadata; every internal fetch failure
is caught. -/
def is_dynasty_or_keeper_league (env : FetchEnv)
    (league_info : Option LeagueInfo) : Bool :=
  match league_info with
  | none => false
  | some li =>
      let settings := li.settings
      if (settings.bind (·.type)).getD 0 = 2 then true
      else if (settings.bind (·.taxi_slots)).getD 0 > 0 then true
      else
        let max_keepers := (settings.bind (·.max_keepers)).getD 0
        let keeper_check : Option Bool :=
          if max_keepers > 0 ∧ truthy li.league_id then
            match env.league_rosters with
            | .ok rosters =>
                let actual_keepers := (rosters.map (·.keepers.length)).sum
                if actual_keepers > 0 then some true
                else if max_keepers > 1 then some true
                else none
            | .error _ => if max_keepers > 1 then some true else none
          else none
        match keeper_check with
        | some b => b
        | none =>
            if truthy li.draft_id then
              match env.draft_info with
              | .ok (some di) =>
                  (di.metadata_scoring_type).getD "" |>.startsWith "dynasty"
              | _ => false
            else false

/-- The inline settings-only dynasty detection block of
`SleeperAPI.get_all_unavailable_players` (sleeper_api.py): type 2, taxi
slots, `max_keepers > 1`, else a previous-league link only together with one
of those dynasty features. -/
def dynasty_settings_check (li : LeagueInfo) : Bool :=
  let settings := li.settings
  let league_type := settings.bind (·.type)
  let max_keepers := (settings.bind (·.max_keepers)).getD 0
  let taxi_slots := (settings.bind (·.taxi_slots)).getD 0
  if league_type = some 2 then true
  else if taxi_slots > 0 then true
  else if max_keepers > 1 then true
  else if truthy li.previous_league_id then
    max_keepers > 1 || taxi_slots > 0 || league_type = some 2
  else false

/-- `SleeperAPI.get_drafted_players_with_names(draft_id)`, distilled to the
drafted player ids (the only field its caller reads): fetch the picks and the
player directory, keep each pick's truthy `player_id`; either fetch failing
raises. -/
def get_drafted_players_with_names (env : FetchEnv) :
    Except Unit (List String) :=
  match env.draft_picks with
  | .error e => .error e
  | .ok picks =>
      match env.all_players with
      | .error e => .error e
      | .ok _ =>
          .ok (picks.filterMap (fun pid? =>
            match pid? with
            | some pid => if pid ≠ "" then some pid else none
            | none => none))

/-- `SleeperAPI.get_rostered_players(league_id)`: the union of every roster's
`players`, `taxi` and `reserve` lists; its internal fetch failure is caught
and yields the empty set. -/
def get_rostered_players_set (env : FetchEnv) : Finset String :=
  match env.league_rosters with
  | .error _ => ∅
  | .ok rosters =>
      rosters.foldl
        (fun acc r =>
          acc ∪ r.players.toFinset ∪ r.taxi.toFinset ∪ r.reserve.toFinset)
        ∅

/-- The `try` body of `SleeperAPI.get_all_unavailable_players`. -/
def resolveUnavailable (env : FetchEnv) (league_id : Option String) :
    Except Unit (Finset String × Bool) :=
  match get_drafted_players_with_names env with
  | .error e => .error e
  | .ok drafted =>
      let unavailable := drafted.toFinset
      let lid? : Except Unit (Option String) :=
        if truthy league_id then .ok league_id
        else
          match env.draft_info with
          | .error e => .error e
          | .ok di? => .ok (di?.bind (·.league_id))
      match lid? with
      | .error e => .error e
      | .ok lid =>
          if truthy lid then
            match env.league_info with
            | .error e => .error e
            | .ok li? =>
                match li? with
                | none => .ok (unavailable, false)
                | some li =>
                    if dynasty_settings_check li then
                      .ok (unavailable ∪ get_rostered_players_set env, true)
                    else
                      .ok (unavailable, false)
          else .ok (unavailable, false)

/-- Embedding of `SleeperAPI.get_all_unavailable_players(draft_id, league_id)`:
the `try` body, whose exceptions fall back to re-fetching the drafted
players, and to the empty set if that fails too.  The returned id list is a
Python set, modelled as a `Finset`. -/
def get_all_unavailable_players (env : FetchEnv) (draft_id : String)
    (league_id : Option String) : Finset String × Bool :=
  match resolveUnavailable env league_id with
  | .ok r => r
  | .error _ =>
      match get_drafted_players_with_names env with
      | .ok drafted => (drafted.toFinset, false)
      | .error _ => (∅, false)

/-! ## Python-value model for `LeagueAnalyzer.detect_league_format` -/

/-- A Python/JSON value, as far as `detect_league_format` can observe it. -/
inductive PyVal where
  | null
  | num (q : ℚ)
  | str (s : String)
  | list (xs : List PyVal)
  | dict (kvs : List (String × PyVal))

/-- Python `v == q` for a numeric literal `q` (only numbers compare equal). -/
def pyEqNum (v : PyVal) (q : ℚ) : Bool :=
  match v with
  | .num p => p = q
  | _ => false

/-- Python substring containment `needle in hay` on strings. -/
def pyStrContains (hay needle : String) : Bool :=
  hay.data.tails.any (fun t => needle.data.isPrefixOf t)

/-- Python `str.count(needle)`: non-overlapping occurrence count. -/
def countOcc (needle : List Char) : List Char → ℕ
  | [] => if needle = [] then 1 else 0
  | c :: rest =>
      if h : needle = [] then (c :: rest).length + 1
      else
        if needle.isPrefixOf (c :: rest) then
          1 + countOcc needle (List.drop (needle.length - 1) rest)
        else countOcc needle rest
termination_by l => l.length
decreasing_by
  · simp only [List.length_drop, List.length_cons]
    omega
  · simp only [List.length_cons]
    omega

/-- Python `container.count('x')`; raises (`AttributeError`) unless the
container is a list or a string. -/
def pyCount (container : PyVal) (target : String) : Except Unit ℕ :=
  match container with
  | .list xs =>
      .ok (xs.countP (fun v => match v with | .str s => s = target | _ => false))
  | .str s => .ok (countOcc target.data s.data)
  | _ => .error ()

/-- Python `'x' in container`; raises (`TypeError`) for numbers and `None`. -/
def pyContains (container : PyVal) (target : String) : Except Unit Bool :=
  match container with
  | .list xs =>
      .ok (xs.any (fun v => match v with | .str s => s = target | _ => false))
  | .str s => .ok (pyStrContains s target)
  | .dict kvs => .ok ((kvs.map Prod.fst).contains target)
  | _ => .error ()

/-- The `try` body of `LeagueAnalyzer.detect_league_format`. -/
def detect_league_format_body (kvs : List (String × PyVal)) :
    Except Unit (String × String) :=
  match (kvs.lookup "scoring_settings").getD (.dict []) with
  | .dict sd =>
      let rec_points := (sd.lookup "rec").getD (.num 0)
      let scoring_format :=
        if pyEqNum rec_points 0 then "standard"
        else if pyEqNum rec_points (1/2) then "half_ppr"
        else if pyEqNum rec_points 1 then "ppr"
        else "half_ppr"
      let roster_positions := (kvs.lookup "roster_positions").getD (.list [])
      match pyCount roster_positions "QB" with
      | .error e => .error e
      | .ok qb_count =>
          match pyContains roster_positions "SUPER_FLEX" with
          | .error e => .error e
          | .ok has_superflex =>
              .ok (scoring_format,
                if qb_count > 1 || has_superflex then "superflex" else "standard")
  | _ => .error ()

/-- Embedding of `LeagueAnalyzer.detect_league_format(league_info)`: a falsy
or non-dict input, or any exception while reading the settings, yields the
safe default `('half_ppr', 'superflex')`. -/
def detect_league_format (league_info : PyVal) : String × String :=
  match league_info with
  | .dict [] => ("half_ppr", "superflex")
  | .dict kvs =>
      match detect_league_format_body kvs with
      | .ok r => r
      | .error _ => ("half_ppr", "superflex")
  | _ => ("half_ppr", "superflex")

/-! ## Rankings repository: `SimpleRankingsManager` -/

/-- A cell of a rankings CSV as loaded by pandas; `na` models NaN/missing.
Non-numeric rank cells are treated as missing by this model (the spec's
corpus has numeric rank columns). -/
inductive CVal where
  | num (n : ℤ)
  | str (s : String)
  | na
deriving DecidableEq, Repr

/-- One loaded rankings table: the CSV header and rows aligned with it. -/
structure RTable where
  header : List String
  rows : List (List CVal)
deriving DecidableEq, Repr

/-- Python `str.upper()` (ASCII semantics). -/
def upper (s : String) : String := ⟨s.data.map Char.toUpper⟩

/-- Python `str.strip()`: remove leading and trailing whitespace. -/
def pyStrip (s : String) : String :=
  ⟨((s.data.dropWhile Char.isWhitespace).reverse.dropWhile
      Char.isWhitespace).reverse⟩

/-- Python `int(str)`: an optional sign followed by digits. -/
def digitsToNat? (cs : List Char) : Option ℕ :=
  if cs ≠ [] ∧ cs.all (·.isDigit) then
    some (cs.foldl (fun a c => a * 10 + (c.toNat - 48)) 0)
  else none

/-- Python `int(str)` on a whole string. -/
def strToInt? (s : String) : Option ℤ :=
  match s.data with
  | '-' :: rest => (digitsToNat? rest).map (fun n => -(n : ℤ))
  | '+' :: rest => (digitsToNat? rest).map (fun n => (n : ℤ))
  | cs => (digitsToNat? cs).map (fun n => (n : ℤ))

/-- A Sleeper player record; `first_name`/`last_name` model
`player_data.get('first_name', '')` (absent key = `''`). -/
structure SPlayer where
  first_name : String
  last_name : String
  team : Option String
  injury_status : Option String
  years_exp : Option ℤ
deriving DecidableEq, Repr

/-- The Sleeper player directory; a `none` value models a falsy (empty)
player record, which the matching loops skip. -/
abbrev SleeperDir := List (String × Option SPlayer)

/-- `row[col]` where the column exists (`col in row` on a pandas row). -/
def getCell (header : List String) (row : List CVal) (col : String) : Option CVal :=
  (header.zip row).lookup col

/-- The `for col in columns: if col in row and pd.notna(row[col])` pattern of
the `_get_player_*` helpers: first alias column that exists with a non-NaN
cell. -/
def firstCell (header : List String) (row : List CVal) :
    List String → Option CVal
  | [] => none
  | c :: rest =>
      match getCell header row c with
      | some v => if v ≠ CVal.na then some v else firstCell header row rest
      | none => firstCell header row rest

/-- Python `str(cell)` for the cells this model can hold. -/
def cellStr : CVal → String
  | .str s => s
  | .num n => toString n
  | .na => "nan"

/-- Python `int(cell)`: numbers convert, strings via integer parsing. -/
def cellInt : CVal → Option ℤ
  | .num n => some n
  | .str s => strToInt? s
  | .na => none

/-- The `try: return int(row[col]) except: pass` loop of `_get_player_rank`
and friends: first alias column with a non-NaN, int-convertible cell. -/
def firstIntCell (header : List String) (row : List CVal) :
    List String → Option ℤ
  | [] => none
  | c :: rest =>
      match getCell header row c with
      | some v =>
          if v ≠ CVal.na then
            match cellInt v with
            | some n => some n
            | none => firstIntCell header row rest
          else firstIntCell header row rest
      | none => firstIntCell header row rest

/-- `SimpleRankingsManager._get_player_name`. -/
def get_player_name (header : List String) (row : List CVal) : String :=
  match firstCell header row ["Player", "Name", "player", "name"] with
  | some v => cellStr v
  | none => "Unknown Player"

/-- `SimpleRankingsManager._get_player_position`. -/
def get_player_position (header : List String) (row : List CVal) : String :=
  match firstCell header row ["Position", "Pos", "position", "pos"] with
  | some v => cellStr v
  | none => "Unknown"

/-- `SimpleRankingsManager._get_player_team`. -/
def get_player_team (header : List String) (row : List CVal) : String :=
  match firstCell header row ["Team", "Tm", "team", "tm"] with
  | some v => cellStr v
  | none => "Unknown"

/-- `SimpleRankingsManager._get_player_rank` (999 when no rank found). -/
def get_player_rank (header : List String) (row : List CVal) : ℤ :=
  (firstIntCell header row ["Rank", "Overall", "rank", "overall"]).getD 999

/-- `SimpleRankingsManager._get_player_tier`: the tier column when present,
else fixed rank breakpoints. -/
def get_player_tier (header : List String) (row : List CVal) : ℤ :=
  match firstIntCell header row ["Tier", "tier"] with
  | some t => t
  | none =>
      let rank := get_player_rank header row
      if rank ≤ 12 then 1
      else if rank ≤ 24 then 2
      else if rank ≤ 36 then 3
      else if rank ≤ 60 then 4
      else 5

/-- `SimpleRankingsManager._get_player_bye`. -/
def get_player_bye (header : List String) (row : List CVal) : Option ℤ :=
  firstIntCell header row ["Bye", "ByeWeek", "bye", "bye_week"]

/-- The exact-match loop of `_find_sleeper_match`: first directory entry
whose uppercased `"first last"` equals the cleaned ranking name. -/
def exactNameMatch (clean : String) : SleeperDir → Option (String × SPlayer)
  | [] => none
  | (pid, pd?) :: rest =>
      match pd? with
      | none => exactNameMatch clean rest
      | some pd =>
          let full := pyStrip (upper pd.first_name ++ " " ++ upper pd.last_name)
          if full = clean then some (pid, pd) else exactNameMatch clean rest

/-- The partial-match loop of `_find_sleeper_match`: the canonical last name
is contained in the ranking name and the first initials agree. -/
def fallbackNameMatch (clean : String) : SleeperDir → Option (String × SPlayer)
  | [] => none
  | (pid, pd?) :: rest =>
      match pd? with
      | none => fallbackNameMatch clean rest
      | some pd =>
          let first := upper pd.first_name
          let last := upper pd.last_name
          if last ≠ "" && pyStrContains clean last
              && first ≠ "" && clean ≠ ""
              && first.data.head? = clean.data.head? then
            some (pid, pd)
          else fallbackNameMatch clean rest

/-- Embedding of `SimpleRankingsManager._find_sleeper_match(player_name,
sleeper_players)`. -/
def find_sleeper_match (player_name : String) (sleeper_players : SleeperDir) :
    Option (String × SPlayer) :=
  if player_name = "" ∨ sleeper_players = [] then none
  else
    let clean := pyStrip (upper player_name)
    match exactNameMatch clean sleeper_players with
    | some m => some m
    | none => fallbackNameMatch clean sleeper_players

/-- The drafted-name expansion of `get_available_players`: for each drafted
id with a (truthy) directory record and non-empty name, the variants
`"FIRST LAST"`, `"LAST, FIRST"`, `"F. LAST"` (the third is `""` when the
first name is empty). -/
def draftedNameVariants (drafted : List String) (dir : SleeperDir) :
    List String :=
  drafted.foldl
    (fun acc pid =>
      match (dir.lookup pid).getD none with
      | none => acc
      | some pd =>
          let name := pyStrip (pd.first_name ++ " " ++ pd.last_name)
          if name ≠ "" then
            acc ++ [upper name,
                    upper (pd.last_name ++ ", " ++ pd.first_name),
                    if pd.first_name ≠ "" then
                      upper (String.mk (pd.first_name.data.take 1) ++ ". " ++ pd.last_name)
                    else ""]
          else acc)
    []

/-- The `is_drafted(row)` predicate of `get_available_players`: exact name
match against the variants, or length-guarded substring containment either
way. -/
def is_drafted (names : List String) (header : List String)
    (row : List CVal) : Bool :=
  let pn := upper (get_player_name header row)
  names.contains pn
    || names.any (fun dn =>
        dn.length > 3 && (pyStrContains pn dn || pyStrContains dn pn))

/-- First alias in `cols` that is one of the table's columns. -/
def findCol (header : List String) (cols : List String) : Option String :=
  cols.find? (fun c => header.contains c)

/-- `df[df[position_col].str.upper() == position_filter.upper()]`: non-string
cells compare unequal (pandas `.str` yields NaN there). -/
def positionFilterRows (header : List String) (rows : List (List CVal))
    (pf : String) : List (List CVal) :=
  match findCol header ["Position", "Pos", "position"] with
  | none => rows
  | some c =>
      rows.filter (fun row =>
        match getCell header row c with
        | some (.str s) => upper s = upper pf
        | _ => false)

/-- The rank-column aliases of `get_available_players`. -/
def RANK_COLS : List String := ["Rank", "Overall", "rank", "overall"]

/-- The sort key of one row for `df.sort_values(rank_col)`: its numeric rank
cell, `none` for NaN (pandas sorts NaN last). -/
def cellRankKey (header : List String) (c : String) (row : List CVal) :
    Option ℤ :=
  match getCell header row c with
  | some (.num n) => some n
  | _ => none

/-- Ascending order on optional ranks, absent rank sorting last. -/
def keyLE : Option ℤ → Option ℤ → Bool
  | some a, some b => a ≤ b
  | some _, none => true
  | none, some _ => false
  | none, none => true

/-- Row order used by `df.sort_values(rank_col)`. -/
def rowRankRel (header : List String) (c : String)
    (r1 r2 : List CVal) : Prop :=
  keyLE (cellRankKey header c r1) (cellRankKey header c r2) = true

instance (header : List String) (c : String) :
    DecidableRel (rowRankRel header c) := fun r1 r2 =>
  inferInstanceAs (Decidable (_ = true))

theorem keyLE_total (x y : Option ℤ) : keyLE x y = true ∨ keyLE y x = true := by
  cases x <;> cases y <;> simp [keyLE] <;> omega

theorem keyLE_trans (x y z : Option ℤ) (h1 : keyLE x y = true)
    (h2 : keyLE y z = true) : keyLE x z = true := by
  cases x <;> cases y <;> cases z <;> simp_all [keyLE] <;> omega

instance (header : List String) (c : String) :
    IsTotal (List CVal) (rowRankRel header c) :=
  ⟨fun r1 r2 => keyLE_total _ _⟩

instance (header : List String) (c : String) :
    IsTrans (List CVal) (rowRankRel header c) :=
  ⟨fun _ _ _ h1 h2 => keyLE_trans _ _ _ h1 h2⟩

/-- `df.sort_values(rank_col)` when a rank column exists, else no sort. -/
def sortRowsByRank (header : List String) (rows : List (List CVal)) :
    List (List CVal) :=
  match findCol header RANK_COLS with
  | none => rows
  | some c => List.insertionSort (rowRankRel header c) rows

/-- The rank key the table actually sorts one row by (`none` when the table
has no rank column or the cell is not numeric). -/
def rankKeyOf (header : List String) (row : List CVal) : Option ℤ :=
  match findCol header RANK_COLS with
  | none => none
  | some c => cellRankKey header c row

/-- The player dictionary built for each returned row; the `player_id`,
`sleeper_team`, `injury_status` and `years_exp` entries exist only when a
Sleeper match was found. -/
structure PlayerInfo where
  name : String
  position : String
  team : String
  rank : ℤ
  tier : ℤ
  bye_week : Option ℤ
  player_id : Option String
  sleeper_team : Option String
  injury_status : Option String
  years_exp : Option ℤ
deriving DecidableEq, Repr

/-- The row-to-dictionary conversion loop of `get_available_players`. -/
def rowToPlayerInfo (dir : SleeperDir) (header : List String)
    (row : List CVal) : PlayerInfo :=
  let name := get_player_name header row
  let m := find_sleeper_match name dir
  { name := name
    position := get_player_position header row
    team := get_player_team header row
    rank := get_player_rank header row
    tier := get_player_tier header row
    bye_week := get_player_bye header row
    player_id := m.map (·.1)
    sleeper_team := m.map (fun pm => pm.2.team.getD (get_player_team header row))
    injury_status := m.bind (·.2.injury_status)
    years_exp := m.map (fun pm => pm.2.years_exp.getD 0) }

/-- The format-selection step of `get_available_players`: the requested
format's table when loaded, else the first loaded table, else nothing. -/
def selectFormat (cache : List (String × RTable))
    (league_format : Option String) : Option RTable :=
  let useDefault :=
    match league_format with
    | none => true
    | some f => f = "" || (cache.lookup f).isNone
  if useDefault then cache.head?.map (·.2)
  else
    match league_format with
    | some f => cache.lookup f
    | none => none

/-- The filter/sort/truncate pipeline of
`SimpleRankingsManager.get_available_players`, stopping before the
dictionary conversion: the selected table's header and surviving rows. -/
def availableTable (cache : List (String × RTable)) (dir : SleeperDir)
    (drafted : List String) (league_format : Option String)
    (position_filter : Option String) (limit : ℕ) :
    Option (List String × List (List CVal)) :=
  match selectFormat cache league_format with
  | none => none
  | some t =>
      let names := draftedNameVariants drafted dir
      let rows1 :=
        if drafted ≠ [] ∧ dir ≠ [] ∧ names ≠ [] then
          t.rows.filter (fun r => !(is_drafted names t.header r))
        else t.rows
      let rows2 :=
        match position_filter with
        | some pf => if pf ≠ "" then positionFilterRows t.header rows1 pf else rows1
        | none => rows1
      let rows3 := sortRowsByRank t.header rows2
      some (t.header, rows3.take limit)

/-- Embedding of `SimpleRankingsManager.get_available_players(drafted_players,
league_format, position_filter, limit)`, with the rankings cache and the
Sleeper directory passed explicitly. -/
def get_available_players (cache : List (String × RTable)) (dir : SleeperDir)
    (drafted : List String) (league_format : Option String)
    (position_filter : Option String) (limit : ℕ) : List PlayerInfo :=
  match availableTable cache dir drafted league_format position_filter limit with
  | none => []
  | some (header, rows) => rows.map (rowToPlayerInfo dir header)

/-- Modelled from the claim's wording (spec §4.5), for comparison with the
code's `positionBaseline` only: sort the position's players by projected
points **descending, estimating points from tier when not directly
supplied**, then take the projected points of the player at the replacement
index.  (`baselineValue p` is exactly "projected points, estimated from tier
when not directly supplied".) -/
def specDescRel (a b : VPlayer) : Prop :=
  (baselineValue b).getD 0 ≤ (baselineValue a).getD 0

instance : DecidableRel specDescRel := fun a b =>
  inferInstanceAs (Decidable ((baselineValue b).getD 0 ≤ (baselineValue a).getD 0))

/-- Modelled from the claim's wording (spec §4.5); see `specDescRel`. -/
def positionBaseline_claimed (league_format : String) (league_size : ℕ)
    (pos : String) (ps : List VPlayer) : Option ℚ :=
  if ps = [] then some 0
  else
    let sortedPs := List.insertionSort specDescRel ps
    let k := total_demand league_format pos league_size
    let bp := if sortedPs.length > k then sortedPs.getD k default
              else sortedPs.getLastD default
    baselineValue bp

/-- The players that `calculate_vbd_metrics` omits: position outside
QB/RB/WR/TE/K/DEF (or absent), or neither projected points nor an estimable
tier. -/
def droppedByVbd (p : VPlayer) : Prop :=
  p.position.getD "Unknown" ∉ VALID_POSITIONS
    ∨ (p.projected_points = none ∧ estimate_points_from_tier p = none)

instance : DecidablePred droppedByVbd := fun p =>
  inferInstanceAs (Decidable (_ ∨ _))

/-- Fetch outcomes for the C6 scenario: no observed kept players anywhere and
no dynasty draft metadata available. -/
def quietEnv : FetchEnv :=
  { draft_picks := .ok []
    all_players := .ok ()
    draft_info := .ok none
    league_info := .ok none
    league_rosters := .ok [] }

/-- League configuration `maxKeepers=1, taxiSlots=0, type=0`, no
previous-league link. -/
def redraftConfig : LeagueInfo :=
  { league_id := some "L1"
    draft_id := some "D1"
    previous_league_id := none
    settings := some { type := some 0, taxi_slots := some 0, max_keepers := some 1 } }

/-- `redraftConfig` with only `taxiSlots` changed to 2. -/
def taxiConfig : LeagueInfo :=
  { redraftConfig with
    settings := some { type := some 0, taxi_slots := some 2, max_keepers := some 1 } }

/-- Fetch outcomes for the C8 counterexample: the picks fetch succeeds with
one drafted player, the league is a taxi-squad (dynasty) league, and the
roster fetch fails. -/
def rosterFailEnv : FetchEnv :=
  { draft_picks := .ok [some "p1"]
    all_players := .ok ()
    draft_info := .ok none
    league_info := .ok (some taxiConfig)
    league_rosters := .error () }

/-- A canonical directory containing only "AJ Brown" (no period). -/
def ajDir : SleeperDir := [("X", some ⟨"AJ", "Brown", none, none, none⟩)]

/-- The rankings table of the C1 counterexample: the single entry
"A.J. Brown" with overall rank 1. -/
def ajTable : RTable :=
  { header := ["Player", "Rank"], rows := [[.str "A.J. Brown", .num 1]] }

end SleeperDraft

namespace SleeperDraft

/-! ### Claim C2: a completed snake draft gives every team
`roundCount` picks with strictly increasing pick numbers. -/

theorem countP_eq_of_range {T t : ℕ} (ht : t < T) :
    (List.range T).countP (fun j => j = t) = 1 := by
  induction T with
  | zero => omega
  | succ n ih =>
      rw [List.range_succ, List.countP_append]
      rcases Nat.lt_or_ge t n with h | h
      · simp [ih h, List.countP_cons]
        omega
      · have : t = n := by omega
        subst this
        have : (List.range t).countP (fun j => j = t) = 0 := by
          rw [List.countP_eq_zero]
          intro a ha
          simp only [List.mem_range] at ha
          simp
          omega
        simp [this, List.countP_cons]

theorem seat_index_eval (T R j : ℕ) (hT : 1 ≤ T) (hj : j < T) :
    calculate_team_index (T * R + j + 1) T "snake"
      = if (R + 1) % 2 = 1 then j else T - 1 - j := by
  unfold calculate_team_index
  rw [if_pos rfl]
  have hsub : T * R + j + 1 - 1 = T * R + j := by omega
  have hdiv : (T * R + j) / T = R := by
    rw [Nat.mul_add_div (by omega : 0 < T), Nat.div_eq_of_lt hj]
    omega
  have hmod : (T * R + j) % T = j := by
    rw [Nat.mul_add_mod, Nat.mod_eq_of_lt hj]
  rw [hsub, hdiv, hmod]

theorem seat_index_in_block (T R j t : ℕ) (hT : 1 ≤ T) (ht : t < T) (hj : j < T) :
    (calculate_team_index (T * R + j + 1) T "snake" = t)
      ↔ j = (if (R + 1) % 2 = 1 then t else T - 1 - t) := by
  rw [seat_index_eval T R j hT hj]
  split <;> omega

theorem seat_block_count (T R t : ℕ) (hT : 1 ≤ T) (ht : t < T) :
    ((List.range T).map (fun j => T * R + j + 1)).countP
      (fun p => calculate_team_index p T "snake" = t) = 1 := by
  rw [List.countP_map]
  have hstep :
      ((List.range T).countP
        ((fun p => decide (calculate_team_index p T "snake" = t))
          ∘ fun j => T * R + j + 1))
        = (List.range T).countP
            (fun j => j = (if (R + 1) % 2 = 1 then t else T - 1 - t)) := by
    apply List.countP_congr
    intro j hj
    simp only [List.mem_range] at hj
    simp only [Function.comp_apply, decide_eq_true_eq]
    exact seat_index_in_block T R j t hT ht hj
  rw [hstep]
  exact countP_eq_of_range (by split <;> omega)

theorem picksOfTeam_length (T R t : ℕ) (hT : 1 ≤ T) (ht : t < T) :
    (picksOfTeam T R t "snake").length = R := by
  induction R with
  | zero => simp [picksOfTeam, completePickSequence]
  | succ n ih =>
      have hsplit : completePickSequence T (n + 1)
          = completePickSequence T n ++ (List.range T).map (fun j => T * n + j + 1) := by
        unfold completePickSequence
        rw [Nat.mul_succ, List.range_add, List.map_append, List.map_map]
        congr 1
      unfold picksOfTeam at ih ⊢
      rw [hsplit, List.filter_append, List.length_append, ih]
      have hb := seat_block_count T n t hT ht
      rw [List.countP_eq_length_filter] at hb
      omega

/-- Claim C2: for any snake draft with `teamCount ≥ 1`, `roundCount ≥ 1`, the
seat mapper applied to the complete pick sequence `1 .. teamCount*roundCount`
assigns every team index `t < teamCount` exactly `roundCount` picks, and the
pick numbers assigned to each team are strictly increasing. -/
theorem snake_draft_complete_assignment (T R t : ℕ)
    (hT : 1 ≤ T) (hR : 1 ≤ R) (ht : t < T) :
    (picksOfTeam T R t "snake").length = R ∧
      (picksOfTeam T R t "snake").Pairwise (· < ·) := by
  refine ⟨picksOfTeam_length T R t hT ht, ?_⟩
  apply List.Pairwise.filter
  unfold completePickSequence
  refine List.pairwise_map.mpr ?_
  have := List.pairwise_lt_range (T * R)
  exact this.imp (by omega)

/-- Witness for C2 at `teamCount = 10`, `roundCount = 2`, team 9. -/
theorem snake_draft_complete_assignment_witness :
    (picksOfTeam 10 2 9 "snake").length = 2 ∧
      (picksOfTeam 10 2 9 "snake").Pairwise (· < ·) :=
  snake_draft_complete_assignment 10 2 9 (by decide) (by decide) (by decide)

/-! ### Claim C4: the team strength score. -/

/-- Claim C4 (code bug evidence): on an empty roster (all positional counts
zero) `_calculate_team_strength` returns `-30`, outside the `0..100` range
promised by its own docstring and the specification. -/
theorem calculate_team_strength_empty_is_negative :
    calculate_team_strength (fun _ => 0) = -30 := by decide

/-! ### Claim C5: the replacement index is monotone in league size. -/

theorem bench_multiplier_nonneg (pos : String) : 0 ≤ bench_multiplier pos := by
  unfold bench_multiplier
  split <;> norm_num

/-- Claim C5: for a fixed lineup format and position, the replacement index
`total_demand` is monotone non-decreasing in league size. -/
theorem total_demand_monotone (league_format pos : String) (L1 L2 : ℕ)
    (h : L1 ≤ L2) :
    total_demand league_format pos L1 ≤ total_demand league_format pos L2 := by
  have hbm := bench_multiplier_nonneg pos
  have hc : (L1 : ℚ) ≤ (L2 : ℚ) := by exact_mod_cast h
  unfold total_demand
  apply Int.toNat_le_toNat
  apply Int.floor_le_floor
  split_ifs <;> push_cast <;> gcongr

/-- Witness for C5 at league sizes 10 ≤ 12 for RB in a standard lineup. -/
theorem total_demand_monotone_witness :
    total_demand "standard" "RB" 10 ≤ total_demand "standard" "RB" 12 :=
  total_demand_monotone "standard" "RB" 10 12 (by decide)

/-! ### Claim C3: the VBD baseline derivation. -/

/-- Counterexample to claim C3: a 1-team standard league with two QBs —
player A has no projected points but tier 1 (estimated 320 points), player B
has 200 projected points.  The code sorts by raw tier as fallback key, so A
(key 1) sorts *below* B (key 200); with replacement index k = 1 the code's
baseline is A's estimated 320 points, while sorting by estimated projected
points descending as the claim states would give B's 200 points. -/
theorem calculate_baselines_not_sorted_by_estimated_points :
    calculate_baselines
        [("QB", [⟨some "QB", none, some 1, none⟩, ⟨some "QB", some 200, none, none⟩])]
        "standard" 1
      = [("QB", some 320)] ∧
    positionBaseline_claimed "standard" 1 "QB"
        [⟨some "QB", none, some 1, none⟩, ⟨some "QB", some 200, none, none⟩]
      = some 200 := by
  constructor <;> with_unfolding_all rfl

theorem getLastD_eq_getD_sub_one {α : Type} (l : List α) (d : α) :
    l.getLastD d = l.getD (l.length - 1) d := by
  induction l with
  | nil => rfl
  | cons a t ih =>
      cases t with
      | nil => rfl
      | cons b t2 =>
          have h1 : (a :: b :: t2).getLastD d = (b :: t2).getLastD d := rfl
          have h2 : (a :: b :: t2).getD ((a :: b :: t2).length - 1) d
              = (b :: t2).getD ((b :: t2).length - 1) d := rfl
          rw [h1, h2, ih]

/-- Claim C3 as amended: players of a position are sorted descending by the
hybrid key "projected points if supplied, else the raw tier value, else 999"
(not by tier-estimated points), and the stored baseline is the projected
points of the player at the replacement index `k` — estimated from tier at
extraction time when absent — or of the last player when `k` is not less than
the list length. -/
theorem calculate_baselines_amended (groups : List (String × List VPlayer))
    (league_format : String) (league_size : ℕ) (pos : String)
    (ps : List VPlayer) (hmem : (pos, ps) ∈ groups) (hne : ps ≠ []) :
    (pos, positionBaseline league_format league_size pos ps)
        ∈ calculate_baselines groups league_format league_size ∧
      ∃ l, ps.Perm l ∧ l.Pairwise baselineDescRel ∧
        positionBaseline league_format league_size pos ps
          = baselineValue
              (l.getD (min (total_demand league_format pos league_size)
                (l.length - 1)) default) := by
  constructor
  · exact List.mem_map.mpr ⟨(pos, ps), hmem, rfl⟩
  · refine ⟨List.insertionSort baselineDescRel ps,
      (List.perm_insertionSort _ _).symm, List.sorted_insertionSort _ _, ?_⟩
    unfold positionBaseline
    rw [if_neg hne]
    dsimp only
    have hlen : (List.insertionSort baselineDescRel ps).length = ps.length :=
      (List.perm_insertionSort _ _).length_eq
    have hpos : 0 < ps.length := List.length_pos.mpr hne
    by_cases hk :
        (List.insertionSort baselineDescRel ps).length
          > total_demand league_format pos league_size
    · rw [if_pos hk]
      have hmin : min (total_demand league_format pos league_size)
          ((List.insertionSort baselineDescRel ps).length - 1)
          = total_demand league_format pos league_size := by omega
      rw [hmin]
    · rw [if_neg hk]
      have hmin : min (total_demand league_format pos league_size)
          ((List.insertionSort baselineDescRel ps).length - 1)
          = (List.insertionSort baselineDescRel ps).length - 1 := by omega
      rw [hmin, getLastD_eq_getD_sub_one]

/-- Witness for C3 (amended) on the counterexample's position group. -/
theorem calculate_baselines_amended_witness :
    (("QB" : String),
        positionBaseline "standard" 1 "QB"
          [⟨some "QB", none, some 1, none⟩, ⟨some "QB", some 200, none, none⟩])
      ∈ calculate_baselines
          [("QB", [⟨some "QB", none, some 1, none⟩, ⟨some "QB", some 200, none, none⟩])]
          "standard" 1 :=
  (calculate_baselines_amended
    [("QB", [⟨some "QB", none, some 1, none⟩, ⟨some "QB", some 200, none, none⟩])]
    "standard" 1 "QB"
    [⟨some "QB", none, some 1, none⟩, ⟨some "QB", some 200, none, none⟩]
    (List.mem_singleton.mpr rfl) (by simp)).1

/-! ### Claim C10: `calculate_vbd_metrics` silently drops players. -/

theorem addToGroup_keys (acc : List (String × List VPlayer)) (pos : String)
    (p : VPlayer) (k : String) (hk : k ∈ (addToGroup acc pos p).map Prod.fst) :
    k ∈ acc.map Prod.fst ∨ k = pos := by
  induction acc with
  | nil => simpa [addToGroup] using hk
  | cons hd tl ih =>
      unfold addToGroup at hk
      by_cases hhd : hd.1 = pos
      · rw [if_pos hhd] at hk
        simp only [List.map_cons, List.mem_cons] at hk ⊢
        tauto
      · rw [if_neg hhd] at hk
        simp only [List.map_cons, List.mem_cons] at hk ⊢
        rcases hk with h | h
        · tauto
        · rcases ih h with h' | h' <;> tauto

theorem groupByPosition_keys_valid (players : List VPlayer) :
    ∀ k ∈ (groupByPosition players).map Prod.fst, k ∈ VALID_POSITIONS := by
  suffices h : ∀ (ps : List VPlayer) (acc : List (String × List VPlayer)),
      (∀ k ∈ acc.map Prod.fst, k ∈ VALID_POSITIONS) →
      ∀ k ∈ (ps.foldl
        (fun acc p =>
          let pos := p.position.getD "Unknown"
          if pos ∈ VALID_POSITIONS then addToGroup acc pos p else acc)
        acc).map Prod.fst, k ∈ VALID_POSITIONS by
    intro k hk
    exact h players [] (by simp) k hk
  intro ps
  induction ps with
  | nil => intro acc hacc k hk; exact hacc k hk
  | cons p rest ih =>
      intro acc hacc k hk
      rw [List.foldl_cons] at hk
      refine ih _ ?_ k hk
      by_cases hv : p.position.getD "Unknown" ∈ VALID_POSITIONS
      · rw [if_pos hv]
        intro k' hk'
        rcases addToGroup_keys acc _ p k' hk' with h' | h'
        · exact hacc k' h'
        · subst h'
          exact hv
      · rw [if_neg hv]
        exact hacc

theorem lookup_eq_none_of_not_mem_keys {β : Type} (l : List (String × β))
    (k : String) (hk : k ∉ l.map Prod.fst) : l.lookup k = none := by
  induction l with
  | nil => rfl
  | cons hd tl ih =>
      simp only [List.map_cons, List.mem_cons, not_or] at hk
      rw [List.lookup_cons]
      have : (k == hd.1) = false := beq_eq_false_iff_ne.mpr hk.1
      rw [this]
      exact ih hk.2

theorem calculate_player_vbd_none_of_dropped (p : VPlayer)
    (baselines : List (String × Option ℚ))
    (hkeys : ∀ k ∈ baselines.map Prod.fst, k ∈ VALID_POSITIONS)
    (hd : droppedByVbd p) :
    calculate_player_vbd p baselines = .ok none := by
  cases hpp : p.position with
  | none => unfold calculate_player_vbd; rw [hpp]
  | some pos =>
      rcases hd with hd | hd
      · rw [hpp] at hd
        simp only [Option.getD_some] at hd
        have hlk : baselines.lookup pos = none := by
          apply lookup_eq_none_of_not_mem_keys
          intro hmem
          exact hd (hkeys pos hmem)
        unfold calculate_player_vbd
        simp only [hpp, hlk]
      · unfold calculate_player_vbd
        simp only [hpp]
        cases hl : baselines.lookup pos with
        | none => rfl
        | some bOpt =>
            simp only [hd.1, hd.2]

theorem collectVbd_mem (baselines : List (String × Option ℚ))
    (ps : List VPlayer) (lst : List (VPlayer × VbdMetrics))
    (h : collectVbd baselines ps = .ok lst) :
    ∀ pm ∈ lst, calculate_player_vbd pm.1 baselines = .ok (some pm.2) := by
  induction ps generalizing lst with
  | nil =>
      intro pm hpm
      unfold collectVbd at h
      cases h
      cases hpm
  | cons p rest ih =>
      intro pm hpm
      unfold collectVbd at h
      cases hcp : calculate_player_vbd p baselines with
      | error e => simp only [hcp] at h; exact (Except.noConfusion h)
      | ok m? =>
          simp only [hcp] at h
          cases hct : collectVbd baselines rest with
          | error e => simp only [hct] at h; exact (Except.noConfusion h)
          | ok tail =>
              simp only [hct] at h
              cases m? with
              | some m =>
                  injection h with h
                  subst h
                  rcases List.mem_cons.mp hpm with h1 | h1
                  · rw [h1]
                    exact hcp
                  · exact ih tail hct pm h1
              | none =>
                  injection h with h
                  subst h
                  exact ih tail hct pm hpm

theorem assignRanks_mem (l : List (VPlayer × VbdMetrics)) (i : ℕ)
    (q : VbdOutPlayer) (hq : q ∈ assignRanks i l) :
    ∃ pm ∈ l, q.base = pm.1 ∧ q.metrics = pm.2 := by
  induction l generalizing i with
  | nil => cases hq
  | cons pm rest ih =>
      rcases List.mem_cons.mp hq with h1 | h1
      · exact ⟨pm, List.mem_cons_self _ _, by rw [h1], by rw [h1]⟩
      · rcases ih (i + 1) h1 with ⟨pm', hpm', h2, h3⟩
        exact ⟨pm', List.mem_cons_of_mem _ hpm', h2, h3⟩

/-- Claim C10: for every successful run of `calculate_vbd_metrics`, every
input player whose position is not one of QB/RB/WR/TE/K/DEF, or that has
neither projected points nor an estimable tier, is omitted from the returned
players list, the reported total counts only the returned players, and (as
the concrete second conjunct shows) the output can be strictly shorter than
the input with no error or degraded-result flag. -/
theorem calculate_vbd_metrics_drops_silently :
    (∀ (players : List VPlayer) (league_format : String) (league_size : ℕ)
        (r : VbdResult),
        calculate_vbd_metrics players league_format league_size = .ok r →
        (∀ p, droppedByVbd p → ∀ q ∈ r.players, q.base ≠ p) ∧
          r.total_players = r.players.length) ∧
      calculate_vbd_metrics [⟨some "XX", some 100, none, none⟩] "standard" 12
        = .ok ⟨[], [], "standard", 12, 0⟩ := by
  constructor
  · intro players league_format league_size r h
    unfold calculate_vbd_metrics at h
    dsimp only at h
    cases hcol : collectVbd
        (calculate_baselines (groupByPosition players) league_format league_size)
        players with
    | error e => rw [hcol] at h; cases h
    | ok lst =>
        rw [hcol] at h
        cases h
        constructor
        · intro p hd q hq heq
          rcases assignRanks_mem _ _ _ hq with ⟨pm, hpm, hbase, _⟩
          have hpmlst : pm ∈ lst :=
            (List.perm_insertionSort vbdValueDescRel lst).mem_iff.mp hpm
          have hok := collectVbd_mem _ _ _ hcol pm hpmlst
          have hkeys : ∀ k ∈ (calculate_baselines (groupByPosition players)
              league_format league_size).map Prod.fst, k ∈ VALID_POSITIONS := by
            intro k hk
            apply groupByPosition_keys_valid players
            unfold calculate_baselines at hk
            rw [List.map_map] at hk
            simpa using hk
          have hnone := calculate_player_vbd_none_of_dropped pm.1 _ hkeys
            (by rw [← heq] at hd; rw [hbase] at hd; exact hd)
          rw [hok] at hnone
          cases hnone
        · rfl
  · with_unfolding_all rfl

/-! ### Claim C6: the dynasty/keeper classification scenario. -/

/-- Claim C6: with `maxKeepers=1, taxiSlots=0, type=0`, no previous-league
link, no observed kept players and no dynasty draft metadata, both dynasty
classifiers (the league analyzer's and the resolver's inline settings check)
return false; changing only `taxiSlots` to 2 flips both to true. -/
theorem dynasty_keeper_scenario :
    is_dynasty_or_keeper_league quietEnv (some redraftConfig) = false ∧
      is_dynasty_or_keeper_league quietEnv (some taxiConfig) = true ∧
      dynasty_settings_check redraftConfig = false ∧
      dynasty_settings_check taxiConfig = true :=
  ⟨rfl, rfl, rfl, rfl⟩

/-! ### Claim C7: the league-format classifier fallback. -/

/-- Counterexample to claim C7: a (nonempty) configuration dict that merely
lacks the scoring-settings and roster-position entries returns
`('standard', 'standard')` — the missing reception weight defaults to 0 —
not the `('half_ppr', 'superflex')` fallback the claim asserts. -/
theorem detect_league_format_missing_entries_not_fallback :
    detect_league_format (.dict [("name", .str "x")]) = ("standard", "standard")
      ∧ detect_league_format (.dict [("name", .str "x")])
          ≠ ("half_ppr", "superflex") := by
  have e : detect_league_format (.dict [("name", .str "x")])
      = ("standard", "standard") := by with_unfolding_all rfl
  refine ⟨e, ?_⟩
  rw [e]
  decide

/-- Claim C7 as amended: the classifier is total and never raises; a missing
input (`None`, a non-dict, or an empty dict) yields the
`('half_ppr', 'superflex')` fallback, as does any malformed value that makes
reading the settings raise (e.g. a non-dict scoring-settings entry); but a
configuration dict that merely *lacks* the scoring-settings and
roster-position entries yields `('standard', 'standard')` instead. -/
theorem detect_league_format_amended (v : PyVal) :
    ((∀ kvs, v ≠ .dict kvs) → detect_league_format v = ("half_ppr", "superflex")) ∧
      (detect_league_format (.dict []) = ("half_ppr", "superflex")) ∧
      (∀ kvs, v = .dict kvs → kvs ≠ [] →
        kvs.lookup "scoring_settings" = none →
        kvs.lookup "roster_positions" = none →
        detect_league_format v = ("standard", "standard")) ∧
      (∀ kvs sv, v = .dict kvs → kvs ≠ [] →
        kvs.lookup "scoring_settings" = some sv →
        (∀ sd, sv ≠ .dict sd) →
        detect_league_format v = ("half_ppr", "superflex")) := by
  refine ⟨?_, rfl, ?_, ?_⟩
  · intro h
    cases v with
    | dict kvs => exact absurd rfl (h kvs)
    | null => rfl
    | num q => rfl
    | str s => rfl
    | list xs => rfl
  · intro kvs hv hne h1 h2
    subst hv
    cases kvs with
    | nil => exact absurd rfl hne
    | cons a t =>
        have hb : detect_league_format_body (a :: t) = .ok ("standard", "standard") := by
          unfold detect_league_format_body
          rw [h1]
          simp only [Option.getD_none]
          rw [h2]
          with_unfolding_all rfl
        have hd : detect_league_format (.dict (a :: t))
            = match detect_league_format_body (a :: t) with
              | .ok r => r
              | .error _ => ("half_ppr", "superflex") := rfl
        rw [hd, hb]
  · intro kvs sv hv hne h1 hnd
    subst hv
    cases kvs with
    | nil => exact absurd rfl hne
    | cons a t =>
        have hb : detect_league_format_body (a :: t) = .error () := by
          cases sv with
          | dict sd => exact absurd rfl (hnd sd)
          | null =>
              unfold detect_league_format_body
              rw [h1]
              rfl
          | num q =>
              unfold detect_league_format_body
              rw [h1]
              rfl
          | str s =>
              unfold detect_league_format_body
              rw [h1]
              rfl
          | list xs =>
              unfold detect_league_format_body
              rw [h1]
              rfl
        have hd : detect_league_format (.dict (a :: t))
            = match detect_league_format_body (a :: t) with
              | .ok r => r
              | .error _ => ("half_ppr", "superflex") := rfl
        rw [hd, hb]

/-- Witness for C7 (amended): the missing-entries configuration from the
counterexample indeed yields `('standard', 'standard')`. -/
theorem detect_league_format_amended_witness :
    detect_league_format (.dict [("name", .str "x")]) = ("standard", "standard") :=
  (detect_league_format_amended (.dict [("name", .str "x")])).2.2.1
    [("name", .str "x")] rfl (by simp) rfl rfl

/-! ### Claim C8: failure semantics of the unavailability resolver. -/

/-- Counterexample to claim C8: when the roster fetch fails in a league
classified dynasty by its settings (taxi slots), the resolver returns the
drafted ids only but with the dynasty flag **true**, not false as the claim
asserts. -/
theorem resolver_roster_failure_keeps_dynasty_flag :
    get_all_unavailable_players rosterFailEnv "D1" (some "L1")
        = ({"p1"}, true)
      ∧ (get_all_unavailable_players rosterFailEnv "D1" (some "L1")).2 ≠ false := by
  have e : get_all_unavailable_players rosterFailEnv "D1" (some "L1")
      = ({"p1"}, true) := by with_unfolding_all rfl
  refine ⟨e, ?_⟩
  rw [e]
  decide

/-- Claim C8 as amended: the resolver is total (never raises to its caller);
if fetching the drafted players fails it returns the empty set with flag
false; if the league-classification phase fails (league-info fetch, or
draft-info fetch when no league id was supplied) it returns exactly the
drafted ids with flag false; but when the league is classified dynasty from
its settings and only the roster fetch fails, it returns the drafted ids
with the dynasty flag still **true**. -/
theorem resolver_failure_semantics (env : FetchEnv) (draft_id : String)
    (league_id : Option String) :
    (get_drafted_players_with_names env = .error () →
        get_all_unavailable_players env draft_id league_id = (∅, false)) ∧
      (∀ drafted, get_drafted_players_with_names env = .ok drafted →
        truthy league_id = true →
        env.league_info = .error () →
        get_all_unavailable_players env draft_id league_id
          = (drafted.toFinset, false)) ∧
      (∀ drafted, get_drafted_players_with_names env = .ok drafted →
        truthy league_id = false →
        env.draft_info = .error () →
        get_all_unavailable_players env draft_id league_id
          = (drafted.toFinset, false)) ∧
      (∀ drafted li, get_drafted_players_with_names env = .ok drafted →
        truthy league_id = true →
        env.league_info = .ok (some li) →
        dynasty_settings_check li = true →
        env.league_rosters = .error () →
        get_all_unavailable_players env draft_id league_id
          = (drafted.toFinset, true)) := by
  refine ⟨?_, ?_, ?_, ?_⟩
  · intro h
    simp only [get_all_unavailable_players, resolveUnavailable, h]
  · intro drafted h ht hli
    simp only [get_all_unavailable_players, resolveUnavailable, h, ht, hli,
      if_true]
  · intro drafted h ht hdi
    simp only [get_all_unavailable_players, resolveUnavailable, h, ht, hdi,
      if_false, Bool.false_eq_true]
  · intro drafted li h ht hli hdyn hrost
    simp only [get_all_unavailable_players, resolveUnavailable,
      get_rostered_players_set, h, ht, hli, hdyn, hrost, if_true,
      Finset.union_empty]

/-- Witness for C8 (amended) at the counterexample's environment. -/
theorem resolver_failure_semantics_witness :
    get_all_unavailable_players rosterFailEnv "D1" (some "L1")
      = ((["p1"] : List String).toFinset, true) :=
  (resolver_failure_semantics rosterFailEnv "D1" (some "L1")).2.2.2
    ["p1"] taxiConfig rfl rfl rfl rfl rfl

/-! ### Claim C9: the "A.J. Brown" fallback identity match. -/

/-- Claim C9: against a directory containing only "AJ Brown", the ranking
name "A.J. Brown" resolves to that player, the exact case-insensitive
full-name phase finds nothing, and the match comes from the fallback
last-name-containment-plus-first-initial phase. -/
theorem aj_brown_resolved_by_fallback :
    find_sleeper_match "A.J. Brown" ajDir
        = some ("X", ⟨"AJ", "Brown", none, none, none⟩)
      ∧ exactNameMatch (pyStrip (upper "A.J. Brown")) ajDir = none
      ∧ fallbackNameMatch (pyStrip (upper "A.J. Brown")) ajDir
          = some ("X", ⟨"AJ", "Brown", none, none, none⟩) := by
  refine ⟨?_, ?_, ?_⟩ <;> with_unfolding_all rfl

/-! ### Claim C1: the best-available query. -/

/-- Counterexample to claim C1: with AJ Brown's canonical id "X" in the
exclusion set, the ranking entry "A.J. Brown" survives the name-variant
filter (none of "AJ BROWN", "BROWN, AJ", "A. BROWN" matches it) yet is
matched back to canonical id "X" — so the returned list contains a player
whose canonical id is in the exclusion set. -/
theorem get_available_players_returns_excluded_id :
    (get_available_players [("half_ppr_superflex", ajTable)] ajDir ["X"]
        none none 50).map (·.player_id) = [some "X"]
      ∧ "X" ∈ (["X"] : List String) := by
  refine ⟨?_, List.mem_singleton.mpr rfl⟩
  with_unfolding_all rfl

theorem pairwise_of_all {α : Type} (R : α → α → Prop) (h : ∀ a b, R a b) :
    ∀ l : List α, l.Pairwise R
  | [] => List.Pairwise.nil
  | a :: t => List.Pairwise.cons (fun b _ => h a b) (pairwise_of_all R h t)

theorem foldl_const {α β : Type} (f : β → α → β) (hf : ∀ b a, f b a = b) :
    ∀ (l : List α) (b : β), l.foldl f b = b
  | [], _ => rfl
  | a :: t, b => by rw [List.foldl_cons, hf b a, foldl_const f hf t b]

theorem draftedNameVariants_nil_dir (drafted : List String) :
    draftedNameVariants drafted [] = [] := by
  unfold draftedNameVariants
  exact foldl_const _ (fun b a => rfl) drafted []

/-- Claim C1 as amended: the query result is the row list of the selected
table after the drafted-name filter, position filter, rank sort and
truncation; it has at most `limit` entries, is sorted ascending by the
numeric rank key (rows with no rank key sorting last), and no surviving row
matches the drafted-name variants of the exclusion set — exclusion is by
expanded name variants, not by canonical id. -/
theorem get_available_players_spec (cache : List (String × RTable))
    (dir : SleeperDir) (drafted : List String)
    (league_format position_filter : Option String) (limit : ℕ) :
    (get_available_players cache dir drafted league_format position_filter
        limit).length ≤ limit ∧
      ∀ header rows,
        availableTable cache dir drafted league_format position_filter limit
            = some (header, rows) →
        get_available_players cache dir drafted league_format position_filter
            limit = rows.map (rowToPlayerInfo dir header) ∧
          rows.Pairwise (fun r1 r2 =>
            keyLE (rankKeyOf header r1) (rankKeyOf header r2) = true) ∧
          ∀ r ∈ rows,
            is_drafted (draftedNameVariants drafted dir) header r = false := by
  have hrows : ∀ header rows,
      availableTable cache dir drafted league_format position_filter limit
          = some (header, rows) →
      ∃ t : RTable, selectFormat cache league_format = some t ∧
        header = t.header ∧
        rows = (sortRowsByRank t.header
          (match position_filter with
           | some pf =>
               if pf ≠ "" then
                 positionFilterRows t.header
                   (if drafted ≠ [] ∧ dir ≠ []
                       ∧ draftedNameVariants drafted dir ≠ [] then
                     t.rows.filter
                       (fun r => !(is_drafted (draftedNameVariants drafted dir)
                         t.header r))
                   else t.rows) pf
               else
                 (if drafted ≠ [] ∧ dir ≠ []
                     ∧ draftedNameVariants drafted dir ≠ [] then
                   t.rows.filter
                     (fun r => !(is_drafted (draftedNameVariants drafted dir)
                       t.header r))
                 else t.rows)
           | none =>
               (if drafted ≠ [] ∧ dir ≠ []
                   ∧ draftedNameVariants drafted dir ≠ [] then
                 t.rows.filter
                   (fun r => !(is_drafted (draftedNameVariants drafted dir)
                     t.header r))
               else t.rows))).take limit := by
    intro header rows hat
    unfold availableTable at hat
    cases hsel : selectFormat cache league_format with
    | none => rw [hsel] at hat; exact Option.noConfusion hat
    | some t =>
        rw [hsel] at hat
        dsimp only at hat
        injection hat with hat
        rw [Prod.mk.injEq] at hat
        exact ⟨t, rfl, hat.1.symm, hat.2.symm⟩
  constructor
  · unfold get_available_players
    cases hat : availableTable cache dir drafted league_format position_filter
        limit with
    | none => simp
    | some pr =>
        rcases hrows pr.1 pr.2 (by rw [hat]) with ⟨t, _, _, hr⟩
        simp only [List.length_map]
        rw [hr]
        exact List.length_take_le _ _
  · intro header rows hat
    obtain ⟨t, hsel, hheader, hr⟩ := hrows header rows hat
    subst hheader
    refine ⟨?_, ?_, ?_⟩
    · unfold get_available_players
      rw [hat]
    · rw [hr]
      cases hcol : findCol t.header RANK_COLS with
      | none =>
          apply pairwise_of_all
          intro a b
          simp only [rankKeyOf, hcol]
          rfl
      | some c =>
          simp only [sortRowsByRank, hcol]
          refine List.Pairwise.imp ?_
            ((List.sorted_insertionSort (rowRankRel t.header c) _).sublist
              (List.take_sublist _ _))
          intro a b hab
          simp only [rankKeyOf, hcol]
          exact hab
    · intro r hr1
      rw [hr] at hr1
      have hr2 := List.mem_of_mem_take hr1
      have hr3 : r ∈ (match position_filter with
           | some pf =>
               if pf ≠ "" then
                 positionFilterRows t.header
                   (if drafted ≠ [] ∧ dir ≠ []
                       ∧ draftedNameVariants drafted dir ≠ [] then
                     t.rows.filter
                       (fun r => !(is_drafted (draftedNameVariants drafted dir)
                         t.header r))
                   else t.rows) pf
               else
                 (if drafted ≠ [] ∧ dir ≠ []
                     ∧ draftedNameVariants drafted dir ≠ [] then
                   t.rows.filter
                     (fun r => !(is_drafted (draftedNameVariants drafted dir)
                       t.header r))
                 else t.rows)
           | none =>
               (if drafted ≠ [] ∧ dir ≠ []
                   ∧ draftedNameVariants drafted dir ≠ [] then
                 t.rows.filter
                   (fun r => !(is_drafted (draftedNameVariants drafted dir)
                     t.header r))
               else t.rows)) := by
        unfold sortRowsByRank at hr2
        cases hcol : findCol t.header RANK_COLS with
        | none => rw [hcol] at hr2; exact hr2
        | some c =>
            rw [hcol] at hr2
            exact (List.perm_insertionSort (rowRankRel t.header c) _).mem_iff.mp
              hr2
      have hr4 : r ∈ (if drafted ≠ [] ∧ dir ≠ []
          ∧ draftedNameVariants drafted dir ≠ [] then
            t.rows.filter
              (fun r => !(is_drafted (draftedNameVariants drafted dir)
                t.header r))
          else t.rows) := by
        cases position_filter with
        | none => exact hr3
        | some pf =>
            have hr3' : r ∈ (if pf ≠ "" then
                positionFilterRows t.header
                  (if drafted ≠ [] ∧ dir ≠ []
                      ∧ draftedNameVariants drafted dir ≠ [] then
                    t.rows.filter
                      (fun r => !(is_drafted (draftedNameVariants drafted dir)
                        t.header r))
                  else t.rows) pf
              else
                (if drafted ≠ [] ∧ dir ≠ []
                    ∧ draftedNameVariants drafted dir ≠ [] then
                  t.rows.filter
                    (fun r => !(is_drafted (draftedNameVariants drafted dir)
                      t.header r))
                else t.rows)) := hr3
            split at hr3'
            · unfold positionFilterRows at hr3'
              split at hr3'
              · exact hr3'
              · exact List.mem_of_mem_filter hr3'
            · exact hr3'
      split at hr4
      · exact (Bool.not_eq_true' _).mp (List.mem_filter.mp hr4).2
      · rename_i hcond
        have hnames : draftedNameVariants drafted dir = [] := by
          by_contra hne
          apply hcond
          refine ⟨?_, ?_, hne⟩
          · intro hd
            apply hne
            rw [hd]
            rfl
          · intro hdir
            apply hne
            rw [hdir]
            exact draftedNameVariants_nil_dir drafted
        rw [hnames]
        rfl

/-- Witness for C1 (amended) at the counterexample's table and directory. -/
theorem get_available_players_spec_witness :
    (get_available_players [("half_ppr_superflex", ajTable)] ajDir ["X"]
        none none 50).length ≤ 50 ∧
      get_available_players [("half_ppr_superflex", ajTable)] ajDir ["X"]
          none none 50
        = [[CVal.str "A.J. Brown", CVal.num 1]].map
            (rowToPlayerInfo ajDir ["Player", "Rank"]) :=
  ⟨(get_available_players_spec [("half_ppr_superflex", ajTable)] ajDir ["X"]
      none none 50).1,
   ((get_available_players_spec [("half_ppr_superflex", ajTable)] ajDir ["X"]
      none none 50).2 ["Player", "Rank"] [[CVal.str "A.J. Brown", CVal.num 1]]
      (by with_unfolding_all rfl)).1⟩

/-- Witness for C10 at a single player with invalid position `"XX"`. -/
theorem calculate_vbd_metrics_drops_silently_witness :
    (∀ p, droppedByVbd p →
        ∀ q ∈ (⟨[], [], "standard", 12, 0⟩ : VbdResult).players, q.base ≠ p) ∧
      (⟨[], [], "standard", 12, 0⟩ : VbdResult).total_players
        = (⟨[], [], "standard", 12, 0⟩ : VbdResult).players.length :=
  calculate_vbd_metrics_drops_silently.1
    [⟨some "XX", some 100, none, none⟩] "standard" 12
    ⟨[], [], "standard", 12, 0⟩
    calculate_vbd_metrics_drops_silently.2

end SleeperDraft
